import Mathlib

/-!
Shallow embedding of the grid visualisation engine of `aoc-rust-utils`
(crate `aoc-visualisation`): the edge/border model of `grid/grid_cell.rs`
and `grid/grid_config.rs`, and the size-calculation, constraint-generation
and cell-construction logic of `grid.rs` (`GridVisualiser`).

Machine-integer conventions: `usize` values are modelled as `Nat`; the
checked (debug-semantics) subtractions of `calculate_viewable_grid_size`
are modelled with `checkedSub`, so a `usize` underflow — a panic in a
debug build — surfaces as `none`.  The `as u16` casts in
`create_constraints` are modelled by reduction modulo `2 ^ 16` (`lenU16`).
-/

namespace GridVis

/-- Header display mode (`grid_utils.rs`, `DisplayRowColumnNumber`). -/
inductive DisplayRowColumnNumber where
  | Always
  | Never
deriving DecidableEq

/-- Header band kind with its minimum size (`grid_utils.rs`, `DisplayNumbersType`). -/
inductive DisplayNumbersType where
  | Row : Nat → DisplayNumbersType
  | Column : Nat → DisplayNumbersType
deriving DecidableEq

/-- `DisplayNumbersType::get_value`. -/
def DisplayNumbersType.get_value : DisplayNumbersType → Nat
  | .Row v => v
  | .Column v => v

/-- `GridVisualiser::DISPLAY_NUMBERS_ROW` — header row band is 1 character high. -/
def DISPLAY_NUMBERS_ROW : DisplayNumbersType := .Row 1

/-- `GridVisualiser::DISPLAY_NUMBERS_COL` — header column band is 5 characters wide. -/
def DISPLAY_NUMBERS_COL : DisplayNumbersType := .Column 5

/-- The 4-bit edge set of `grid_config.rs` (`GridCellEdge`), one Bool per flag. -/
structure GridCellEdge where
  top : Bool
  right : Bool
  bottom : Bool
  left : Bool
deriving DecidableEq

/-- `GridCellEdge::empty()`. -/
def GridCellEdge.emptySet : GridCellEdge := ⟨false, false, false, false⟩

/-- The four corner glyphs of a `ratatui` border set (only the corner fields
are ever modified by `grid_cell.rs`). -/
structure BorderSet where
  top_left : Char
  top_right : Char
  bottom_left : Char
  bottom_right : Char
deriving DecidableEq

/-- `ratatui::symbols::border::PLAIN`, restricted to its corner fields. -/
def PLAIN : BorderSet := ⟨'┌', '┐', '└', '┘'⟩

/-- `GridCell::generate_border_set` (`grid_cell.rs` lines 42-65): starts from
`PLAIN` and sequentially overwrites `top_left`, `top_right` and `bottom_left`;
`bottom_right` is never touched, and the wildcard arms keep the current field. -/
def generate_border_set (e : GridCellEdge) : BorderSet :=
  let border_set := PLAIN
  let border_set := { border_set with top_left :=
    match e.top, e.left with
    | true, true => '┌'
    | true, false => '┬'
    | false, true => '├'
    | false, false => '┼' }
  let border_set := { border_set with top_right :=
    match e.top, e.right with
    | true, true => '┐'
    | false, true => '┤'
    | _, _ => border_set.top_right }
  let border_set := { border_set with bottom_left :=
    match e.bottom, e.left with
    | true, true => '└'
    | true, false => '┴'
    | _, _ => border_set.bottom_left }
  border_set

/-- The corner table exactly as the specification words it (pure corner iff
both flags; T-junction if exactly one; full cross if neither, symmetrically
for all four corners).  Stated for comparison with `generate_border_set`. -/
def claimed_border_set (e : GridCellEdge) : BorderSet :=
  { top_left :=
      match e.top, e.left with
      | true, true => '┌'
      | true, false => '┬'
      | false, true => '├'
      | false, false => '┼'
    top_right :=
      match e.top, e.right with
      | true, true => '┐'
      | true, false => '┬'
      | false, true => '┤'
      | false, false => '┼'
    bottom_left :=
      match e.bottom, e.left with
      | true, true => '└'
      | true, false => '┴'
      | false, true => '├'
      | false, false => '┼'
    bottom_right :=
      match e.bottom, e.right with
      | true, true => '┘'
      | true, false => '┴'
      | false, true => '┤'
      | false, false => '┼' }

/-- The long-lived configuration object (`grid.rs`, `GridVisualiser`).  The
terminal handle is represented by the drawable area it reports
(`terminal.get_frame().area()`), in character cells.  `S` is the opaque
style type of the backend (an external collaborator). -/
structure GridVisualiser (S : Type) where
  style_map : List (String × S)
  display_row_column_number : DisplayRowColumnNumber
  row_column_number_style : Option S
  max_rows : Option Nat
  max_cols : Option Nat
  area_width : Nat
  area_height : Nat

/-- Checked `usize` subtraction: `none` models the debug-build underflow panic. -/
def checkedSub (a b : Nat) : Option Nat :=
  if b ≤ a then some (a - b) else none

/-- The raw (pre-cap) row/column fit computed by the `match` at the head of
`calculate_viewable_grid_size` (`grid.rs` lines 79-100).  `none` models a
`usize` underflow in the `Always` branch subtractions, or in the `- 1` of
the `Never` branch. -/
def naturalFit {S : Type} (v : GridVisualiser S)
    (content_max_height content_max_width : Nat) : Option (Nat × Nat) :=
  match v.display_row_column_number with
  | .Always =>
      let cell_width := max DISPLAY_NUMBERS_COL.get_value content_max_width
      let cell_height := max DISPLAY_NUMBERS_ROW.get_value content_max_height
      match checkedSub v.area_height cell_height with
      | none => none
      | some h1 =>
        match checkedSub h1 2 with
        | none => none
        | some h2 =>
          match checkedSub v.area_width cell_width with
          | none => none
          | some w1 =>
            match checkedSub w1 2 with
            | none => none
            | some w2 => some (h2 / (cell_height + 1), w2 / (cell_width + 1))
  | .Never =>
      match checkedSub v.area_height 1 with
      | none => none
      | some h1 =>
        match checkedSub v.area_width 1 with
        | none => none
        | some w1 =>
          some (h1 / (content_max_height + 1), w1 / (content_max_width + 1))

/-- `no_rows.min(max_rows)` under `if let Some(max_rows) = self.max_rows`. -/
def applyCap (n : Nat) (cap : Option Nat) : Nat :=
  match cap with
  | some m => min n m
  | none => n

/-- `GridVisualiser::calculate_viewable_grid_size` (`grid.rs` lines 73-118):
raw fit, then optional caps, then the zero check.  The outer `Option` models
panics (arithmetic underflow); the `Except` is the Rust `Result`. -/
def calculate_viewable_grid_size {S : Type} (v : GridVisualiser S)
    (content_max_height content_max_width : Nat) :
    Option (Except String (Nat × Nat)) :=
  match naturalFit v content_max_height content_max_width with
  | none => none
  | some (r0, c0) =>
      let no_rows := applyCap r0 v.max_rows
      let no_cols := applyCap c0 v.max_cols
      if no_rows = 0 ∨ no_cols = 0 then
        some (Except.error "No space to display grid")
      else
        some (Except.ok (no_rows, no_cols))

/-- A `Constraint::Length(x as u16 + k)` value with the `as u16` cast and the
16-bit addition made explicit (release semantics: wrapping). -/
def lenU16 (c k : Nat) : Nat := (c % 65536 + k) % 65536

/-- The `(0..cell_count).for_each` loop body of `create_constraints`
(`grid.rs` lines 279-287): every band is `cell_size + 1` except the one at
index `cell_count - 1`, which is `cell_size + 2`. -/
def bandLengths (cell_count cell_size : Nat) : List Nat :=
  (List.range cell_count).map fun idx =>
    if idx = cell_count - 1 then lenU16 cell_size 2 else lenU16 cell_size 1

/-- `GridVisualiser::create_constraints` (`grid.rs` lines 253-289).  In
`Always` mode the working `cell_size` becomes `max(header_size, input)` and
a header band of `cell_size + 1` is pushed first; the loop then appends the
content bands.  Note the function body has no error path: it always ends in
`Ok(constraints)`. -/
def create_constraints (cell_count input_cell_size : Nat)
    (show_numbers : DisplayRowColumnNumber)
    (constraint_type : DisplayNumbersType) : Except String (List Nat) :=
  match show_numbers with
  | .Always =>
      let cell_size :=
        match constraint_type with
        | .Row height => max height input_cell_size
        | .Column width => max width input_cell_size
      Except.ok (lenU16 cell_size 1 :: bandLengths cell_count cell_size)
  | .Never =>
      Except.ok (bandLengths cell_count input_cell_size)

/-- Sum of the lengths of a constraint sequence (0 for an error result). -/
def constraintsSum (r : Except String (List Nat)) : Nat :=
  match r with
  | .ok l => l.sum
  | .error _ => 0

/-- One element of the borrowed 2-D view: its `Display` text (`to_string()`)
and its optional `RatatuiStylised::get_style()` result. -/
structure CellData (S : Type) where
  text : String
  style : Option S

/-- The borrowed `ArrayView2` of `draw_ref`: extents plus element lookup. -/
structure GridView (S : Type) where
  nrows : Nat
  ncols : Nat
  cell : Nat → Nat → CellData S

/-- The ephemeral cell value handed to `GridCell::new` / `with_style` in
`draw_ref`: display text, resolved optional style (`none` is the default
style of `GridCell::new`), and edge flags. -/
structure RenderCell (S : Type) where
  value : String
  style : Option S
  edge : GridCellEdge

/-- Default cell used only as the out-of-range fallback of `cellAt`. -/
def defaultCell {S : Type} : RenderCell S := ⟨"", none, GridCellEdge.emptySet⟩

/-- Number of layout bands `Layout::split` produces per direction: one rect
per constraint, and `create_constraints` yields `n + 1` entries in `Always`
mode (header band first) and `n` entries in `Never` mode. -/
def renderedCount (mode : DisplayRowColumnNumber) (n : Nat) : Nat :=
  match mode with
  | .Always => n + 1
  | .Never => n

/-- The edge-flag accumulation of `draw_ref` (`grid.rs` lines 170-183 for
`Always`, 222-235 for `Never`): in `Always` mode the last band index is
`grid.nrows()` (header band included), in `Never` mode it is
`grid.nrows() - 1`. -/
def cellEdge (mode : DisplayRowColumnNumber) (nrows ncols row_idx col_idx : Nat) :
    GridCellEdge :=
  match mode with
  | .Always =>
      { top := row_idx == 0
        right := col_idx == ncols
        bottom := row_idx == nrows
        left := col_idx == 0 }
  | .Never =>
      { top := row_idx == 0
        right := col_idx == ncols - 1
        bottom := row_idx == nrows - 1
        left := col_idx == 0 }

/-- The per-position body of the two nested loops of `draw_ref` (`grid.rs`
lines 150-201 for `Always`, 217-243 for `Never`): value selection (header
labels vs element text), edge flags, and style resolution (header cells get
`row_column_number_style`, content cells the element's style). -/
def renderCellAt {S : Type} (v : GridVisualiser S) (g : GridView S)
    (row_offset col_offset row_idx col_idx : Nat) : RenderCell S :=
  match v.display_row_column_number with
  | .Always =>
      let value : String :=
        if row_idx = 0 then
          if col_idx ≠ 0 then toString (col_idx + col_offset) else ""
        else
          if col_idx = 0 then toString (row_idx + row_offset)
          else (g.cell (row_idx - 1) (col_idx - 1)).text
      let style : Option S :=
        if row_idx ≠ 0 ∧ col_idx ≠ 0 then (g.cell (row_idx - 1) (col_idx - 1)).style
        else v.row_column_number_style
      ⟨value, style, cellEdge .Always g.nrows g.ncols row_idx col_idx⟩
  | .Never =>
      ⟨(g.cell row_idx col_idx).text,
        (g.cell row_idx col_idx).style,
        cellEdge .Never g.nrows g.ncols row_idx col_idx⟩

/-- The grid of `RenderCell`s a `draw_ref` call constructs and renders, row
band by row band, column band by column band.  The buffer/glyph rendering
itself belongs to the external `ratatui` collaborator and is not modelled. -/
def drawRefCells {S : Type} (v : GridVisualiser S) (g : GridView S)
    (row_offset col_offset : Nat) : List (List (RenderCell S)) :=
  (List.range (renderedCount v.display_row_column_number g.nrows)).map fun row_idx =>
    (List.range (renderedCount v.display_row_column_number g.ncols)).map fun col_idx =>
      renderCellAt v g row_offset col_offset row_idx col_idx

/-- The rendered cell at position `(i, j)` of a `draw_ref` call. -/
def cellAt {S : Type} (v : GridVisualiser S) (g : GridView S)
    (row_offset col_offset i j : Nat) : RenderCell S :=
  ((drawRefCells v g row_offset col_offset).getD i []).getD j defaultCell

/-- A 16-bit band length is the plain sum below the `u16` range. -/
theorem lenU16_eq (c k : Nat) (h : c + k < 65536) : lenU16 c k = c + k := by
  unfold lenU16
  rw [Nat.mod_eq_of_lt (show c < 65536 by omega)]
  exact Nat.mod_eq_of_lt h

/-- Mapping the last-index test over `range n` yields `n - 1` copies of the
regular value followed by the special last value. -/
theorem range_map_last {α : Type} (n : Nat) (a b : α) (hn : 1 ≤ n) :
    (List.range n).map (fun idx => if idx = n - 1 then b else a)
      = List.replicate (n - 1) a ++ [b] := by
  obtain ⟨k, rfl⟩ : ∃ k, n = k + 1 := ⟨n - 1, by omega⟩
  rw [List.range_succ, List.map_append]
  simp only [Nat.add_sub_cancel]
  congr 1
  · refine List.eq_replicate_iff.mpr ⟨by simp, ?_⟩
    intro x hx
    simp only [List.mem_map, List.mem_range] at hx
    obtain ⟨idx, hidx, rfl⟩ := hx
    simp [Nat.ne_of_lt hidx]
  · simp

/-- Closed form of the constraint loop for at least one cell and sizes below
the `u16` range. -/
theorem bandLengths_eq (n c : Nat) (hn : 1 ≤ n) (hc : c + 2 < 65536) :
    bandLengths n c = List.replicate (n - 1) (c + 1) ++ [c + 2] := by
  unfold bandLengths
  simp only [lenU16_eq c 2 hc, lenU16_eq c 1 (by omega)]
  exact range_map_last n (c + 1) (c + 2) hn

/-- In `Never` mode with a positive area, the raw fit is the division formula. -/
theorem naturalFit_never {S : Type} (v : GridVisualiser S) (ch cw : Nat)
    (hm : v.display_row_column_number = .Never)
    (hH : 1 ≤ v.area_height) (hW : 1 ≤ v.area_width) :
    naturalFit v ch cw
      = some ((v.area_height - 1) / (ch + 1), (v.area_width - 1) / (cw + 1)) := by
  simp [naturalFit, hm, checkedSub, hH, hW]

/-- A missing cap leaves the computed count unchanged. -/
theorem applyCap_none (n : Nat) : applyCap n none = n := rfl

/-- A configured cap clamps the computed count to the minimum. -/
theorem applyCap_some (n m : Nat) : applyCap n (some m) = min n m := rfl

/-- Indexing a mapped range with a default picks the mapped value in range. -/
theorem getD_map_range {α : Type} (f : Nat → α) (n i : Nat) (d : α) (h : i < n) :
    ((List.range n).map f).getD i d = f i := by
  simp [List.getD_eq_getElem?_getD, List.getElem?_map, List.getElem?_range h]

/-- Within the rendered extent, `cellAt` is the loop body `renderCellAt`. -/
theorem cellAt_eq {S : Type} (v : GridVisualiser S) (g : GridView S)
    (ro co i j : Nat)
    (hi : i < renderedCount v.display_row_column_number g.nrows)
    (hj : j < renderedCount v.display_row_column_number g.ncols) :
    cellAt v g ro co i j = renderCellAt v g ro co i j := by
  unfold cellAt drawRefCells
  rw [getD_map_range _ _ _ _ hi, getD_map_range _ _ _ _ hj]

/-- The band counts of `drawRefCells` agree with the number of constraints
`create_constraints` produces for the same mode, tying `renderedCount` to
the source's `Layout::split` band count. -/
theorem create_constraints_length (n s : Nat) (m : DisplayRowColumnNumber)
    (t : DisplayNumbersType) :
    (match create_constraints n s m t with
      | .ok l => l.length
      | .error _ => 0) = renderedCount m n := by
  cases m <;> cases t <;>
    simp [create_constraints, bandLengths, renderedCount]

/-- A 20-wide, 10-high terminal, `Never` mode, no caps. -/
def visNever20x10 : GridVisualiser Nat := ⟨[], .Never, none, none, none, 20, 10⟩

/-- A 20-wide, 10-high terminal, `Never` mode, caps `max_rows = 1`, `max_cols = 2`. -/
def visNeverCaps : GridVisualiser Nat := ⟨[], .Never, none, some 1, some 2, 20, 10⟩

/-- A 20-wide, 2-high terminal, `Always` mode, no caps. -/
def visAlways20x2 : GridVisualiser Nat := ⟨[], .Always, none, none, none, 20, 2⟩

/-- A 5-wide, 5-high terminal, `Never` mode, no caps. -/
def visNever5x5 : GridVisualiser Nat := ⟨[], .Never, none, none, none, 5, 5⟩

/-- C1: with header mode `Never` and no caps, `calculate_viewable_grid_size`
returns `(floor((H-1)/(content_height+1)), floor((W-1)/(content_width+1)))`
for every positive content footprint, whenever that pair is displayable
(both components positive — otherwise the function surfaces the no-space
error, which claim C4 covers). -/
theorem c1_calculate_never_formula {S : Type} (v : GridVisualiser S)
    (ch cw : Nat)
    (hm : v.display_row_column_number = .Never)
    (hmr : v.max_rows = none) (hmc : v.max_cols = none)
    (hch : 1 ≤ ch) (hcw : 1 ≤ cw)
    (hr : 1 ≤ (v.area_height - 1) / (ch + 1))
    (hc : 1 ≤ (v.area_width - 1) / (cw + 1)) :
    calculate_viewable_grid_size v ch cw
      = some (Except.ok
          ((v.area_height - 1) / (ch + 1), (v.area_width - 1) / (cw + 1))) := by
  have hH : 1 ≤ v.area_height := by
    rcases Nat.eq_zero_or_pos v.area_height with h | h
    · rw [h] at hr; simp at hr
    · exact h
  have hW : 1 ≤ v.area_width := by
    rcases Nat.eq_zero_or_pos v.area_width with h | h
    · rw [h] at hc; simp at hc
    · exact h
  have h1 : (v.area_height - 1) / (ch + 1) ≠ 0 := by omega
  have h2 : (v.area_width - 1) / (cw + 1) ≠ 0 := by omega
  simp [calculate_viewable_grid_size, naturalFit_never v ch cw hm hH hW,
    applyCap, hmr, hmc, h1, h2]

/-- C1 witness: area 20 wide by 10 high, content 1x1, headers never:
rows `(10-1)/2 = 4`, cols `(20-1)/2 = 9`. -/
theorem c1_calculate_never_formula_witness :
    calculate_viewable_grid_size visNever20x10 1 1 = some (Except.ok (4, 9)) := by
  have h := c1_calculate_never_formula visNever20x10 1 1 rfl rfl rfl
    (by decide) (by decide) (by decide) (by decide)
  exact h

/-- C4: whenever the raw fit computation succeeds and both caps are
configured, each dimension is clamped to `min(natural_fit, cap)`, and the
"No space to display grid" error is returned exactly when either clamped
dimension is zero; in particular a zero natural fit or a zero cap always
yields the error. -/
theorem c4_caps_and_no_space {S : Type} (v : GridVisualiser S)
    (ch cw r0 c0 mr mc : Nat)
    (hfit : naturalFit v ch cw = some (r0, c0))
    (hmr : v.max_rows = some mr) (hmc : v.max_cols = some mc) :
    (calculate_viewable_grid_size v ch cw
        = some (Except.error "No space to display grid")
      ↔ min r0 mr = 0 ∨ min c0 mc = 0)
    ∧ (min r0 mr ≠ 0 → min c0 mc ≠ 0 →
        calculate_viewable_grid_size v ch cw
          = some (Except.ok (min r0 mr, min c0 mc)))
    ∧ (r0 = 0 ∨ mr = 0 ∨ c0 = 0 ∨ mc = 0 →
        calculate_viewable_grid_size v ch cw
          = some (Except.error "No space to display grid")) := by
  have key : calculate_viewable_grid_size v ch cw
      = (if min r0 mr = 0 ∨ min c0 mc = 0 then
          some (Except.error "No space to display grid")
        else some (Except.ok (min r0 mr, min c0 mc))) := by
    simp only [calculate_viewable_grid_size, hfit, hmr, hmc, applyCap]
  refine ⟨?_, ?_, ?_⟩
  · by_cases h : min r0 mr = 0 ∨ min c0 mc = 0
    · exact iff_of_true (by rw [key, if_pos h]) h
    · refine iff_of_false ?_ h
      rw [key, if_neg h]
      simp
  · intro h1 h2
    rw [key, if_neg (by omega)]
  · intro h
    rw [key, if_pos (by omega)]

/-- C4 witness: 20x10 area, content 1x1, natural fit (4, 9), caps (1, 2):
the result is the clamped `(min 4 1, min 9 2) = (1, 2)` with no error. -/
theorem c4_caps_and_no_space_witness :
    calculate_viewable_grid_size visNeverCaps 1 1 = some (Except.ok (1, 2)) := by
  have h := (c4_caps_and_no_space visNeverCaps 1 1 4 9 1 2 rfl rfl rfl).2.1
    (by decide) (by decide)
  exact h

/-- C9: on a valid input — a 20-wide, 2-high terminal, `Always` mode,
content footprint 1x1 — the `Always`-branch subtraction
`area.height - cell_height - 2` of `calculate_viewable_grid_size`
underflows `usize` (`2 - 1 - 2`): a panic in a debug build (a wrap to a
huge bogus fit in release), modelled here as `none`, instead of the
"No space to display grid" error the contract promises. -/
theorem c9_always_subtraction_underflow :
    calculate_viewable_grid_size visAlways20x2 1 1 = none := rfl

/-- A 1x1 grid view with a single styleless element. -/
def grid1 : GridView Nat := ⟨1, 1, fun _ _ => ⟨"X", none⟩⟩

/-- A 2x2 grid view of distinct texts. -/
def grid2 : GridView Nat := ⟨2, 2, fun i j => ⟨toString (i * 2 + j), none⟩⟩

/-- C5: over the full partitioned extent of a `draw_ref` call (header
row/column included in `Always` mode), a rendered cell has Top set exactly
on rendered row 0, Bottom exactly on the last rendered row, Left exactly on
rendered column 0 and Right exactly on the last rendered column. -/
theorem c5_edge_flags {S : Type} (v : GridVisualiser S) (g : GridView S)
    (ro co i j : Nat)
    (hi : i < renderedCount v.display_row_column_number g.nrows)
    (hj : j < renderedCount v.display_row_column_number g.ncols) :
    ((cellAt v g ro co i j).edge.top = true ↔ i = 0)
    ∧ ((cellAt v g ro co i j).edge.bottom = true
        ↔ i = renderedCount v.display_row_column_number g.nrows - 1)
    ∧ ((cellAt v g ro co i j).edge.left = true ↔ j = 0)
    ∧ ((cellAt v g ro co i j).edge.right = true
        ↔ j = renderedCount v.display_row_column_number g.ncols - 1) := by
  rw [cellAt_eq v g ro co i j hi hj]
  cases h : v.display_row_column_number with
  | Always => simp [renderCellAt, cellEdge, h, renderedCount]
  | Never => simp [renderCellAt, cellEdge, h, renderedCount]

/-- C5 witness: the sole cell of a 1x1 rendered grid (`Never` mode) carries
all four edge flags. -/
theorem c5_edge_flags_witness :
    (cellAt visNever5x5 grid1 0 0 0 0).edge.top = true
    ∧ (cellAt visNever5x5 grid1 0 0 0 0).edge.bottom = true
    ∧ (cellAt visNever5x5 grid1 0 0 0 0).edge.left = true
    ∧ (cellAt visNever5x5 grid1 0 0 0 0).edge.right = true := by
  obtain ⟨h1, h2, h3, h4⟩ :=
    c5_edge_flags visNever5x5 grid1 0 0 0 0 (by decide) (by decide)
  exact ⟨h1.mpr rfl, h2.mpr (by decide), h3.mpr rfl, h4.mpr (by decide)⟩

/-- C7: in `Always` mode, the header corner (0,0) shows the empty string,
header row cells show `col_offset + local_index`, header column cells show
`row_offset + local_index` (decimal, offsets added directly to the loop
index), and every non-header position shows the underlying element's
display text. -/
theorem c7_header_labels {S : Type} (v : GridVisualiser S) (g : GridView S)
    (ro co i j : Nat)
    (hm : v.display_row_column_number = .Always)
    (hi : i < g.nrows + 1) (hj : j < g.ncols + 1) :
    (i = 0 → j = 0 → (cellAt v g ro co i j).value = "")
    ∧ (i = 0 → 1 ≤ j → (cellAt v g ro co i j).value = toString (co + j))
    ∧ (1 ≤ i → j = 0 → (cellAt v g ro co i j).value = toString (ro + i))
    ∧ (1 ≤ i → 1 ≤ j →
        (cellAt v g ro co i j).value = (g.cell (i - 1) (j - 1)).text) := by
  have hi' : i < renderedCount v.display_row_column_number g.nrows := by
    rw [hm]; exact hi
  have hj' : j < renderedCount v.display_row_column_number g.ncols := by
    rw [hm]; exact hj
  rw [cellAt_eq v g ro co i j hi' hj']
  refine ⟨?_, ?_, ?_, ?_⟩
  · intro h1 h2
    subst h1; subst h2
    simp [renderCellAt, hm]
  · intro h1 h2
    subst h1
    have hj0 : j ≠ 0 := by omega
    simp [renderCellAt, hm, hj0]
    rw [Nat.add_comm j co]
  · intro h1 h2
    subst h2
    have hi0 : i ≠ 0 := by omega
    simp [renderCellAt, hm, hi0]
    rw [Nat.add_comm i ro]
  · intro h1 h2
    have hi0 : i ≠ 0 := by omega
    have hj0 : j ≠ 0 := by omega
    simp [renderCellAt, hm, hi0, hj0]

/-- The concrete `Always`-mode visualiser used in the C7 witness. -/
def visAlways19x7 : GridVisualiser Nat := ⟨[], .Always, none, none, none, 19, 7⟩

/-- C7 witness: with offsets (5, 10), the header cell at row 0, column 1
shows "11" (`10 + 1`). -/
theorem c7_header_labels_witness :
    (cellAt visAlways19x7 grid2 5 10 0 1).value = "11" := by
  have h := (c7_header_labels visAlways19x7 grid2 5 10 0 1 rfl
    (by decide) (by decide)).2.1 rfl (by decide)
  exact h

/-- C10: the name-to-style table filled by `add_style` is never consulted by
`draw_ref`: two visualisers identical except for their style maps construct
identical rendered cells (values, styles and edges all agree) for the same
grid view and offsets. -/
theorem c10_style_map_unused {S : Type} (v1 v2 : GridVisualiser S)
    (g : GridView S) (ro co : Nat)
    (hm : v1.display_row_column_number = v2.display_row_column_number)
    (hs : v1.row_column_number_style = v2.row_column_number_style)
    (hmr : v1.max_rows = v2.max_rows) (hmc : v1.max_cols = v2.max_cols)
    (hw : v1.area_width = v2.area_width) (hh : v1.area_height = v2.area_height) :
    drawRefCells v1 g ro co = drawRefCells v2 g ro co := by
  obtain ⟨sm1, m1, s1, mr1, mc1, w1, h1⟩ := v1
  obtain ⟨sm2, m2, s2, mr2, mc2, w2, h2⟩ := v2
  dsimp only at hm hs hmr hmc hw hh
  subst hm; subst hs; subst hmr; subst hmc; subst hw; subst hh
  rfl

/-- Visualiser with a populated style map, otherwise equal to `visNever5x5`. -/
def visNever5x5Styled : GridVisualiser Nat :=
  ⟨[("wall", 7)], .Never, none, none, none, 5, 5⟩

/-- C10 witness: a visualiser with a registered style and one without
produce the same rendered cells. -/
theorem c10_style_map_unused_witness :
    drawRefCells visNever5x5Styled grid1 0 0 = drawRefCells visNever5x5 grid1 0 0 :=
  c10_style_map_unused visNever5x5Styled visNever5x5 grid1 0 0
    rfl rfl rfl rfl rfl rfl

/-- C2 counterexample: `create_constraints(1, 2, Always, Column(5))` yields
`[6, 7]` — the content band is `max(5, 2) + 2 = 7`, not the claimed
`input_cell_size + 2 = 4`. -/
theorem c2_counterexample :
    create_constraints 1 2 .Always (.Column 5) = Except.ok [6, 7]
    ∧ (7 : Nat) ≠ 2 + 2 :=
  ⟨rfl, by decide⟩

/-- C2 (amended): in `Always` mode the working cell size
`max(header_minimum_size, input_cell_size)` applies to every band, not only
the header: the header band is `max + 1`, then `cell_count` content bands of
`max + 1` except the last one of the whole sequence, which is `max + 2`
(band lengths pass through a `u16` cast, immaterial below `2^16 - 2`). -/
theorem c2_amended (cell_count input_cell_size m : Nat) (t : DisplayNumbersType)
    (hn : 1 ≤ cell_count) (ht : t.get_value = m)
    (hm : max m input_cell_size + 2 < 65536) :
    create_constraints cell_count input_cell_size .Always t
      = Except.ok ((max m input_cell_size + 1)
          :: (List.replicate (cell_count - 1) (max m input_cell_size + 1)
              ++ [max m input_cell_size + 2])) := by
  cases t with
  | Row h =>
      simp only [DisplayNumbersType.get_value] at ht
      subst ht
      simp only [create_constraints]
      rw [lenU16_eq _ 1 (by omega), bandLengths_eq _ _ hn (by omega)]
  | Column w =>
      simp only [DisplayNumbersType.get_value] at ht
      subst ht
      simp only [create_constraints]
      rw [lenU16_eq _ 1 (by omega), bandLengths_eq _ _ hn (by omega)]

/-- C2 witness (the spec's own concrete example, which the amendment keeps):
`create_constraints(5, 3, Always, Row(2))` is `[4, 4, 4, 4, 4, 5]`. -/
theorem c2_amended_witness :
    create_constraints 5 3 .Always (.Row 2) = Except.ok [4, 4, 4, 4, 4, 5] := by
  have h := c2_amended 5 3 2 (.Row 2) (by decide) rfl (by decide)
  exact h

/-- C3 counterexample: with header mode `Always` and `cell_count = 0` — only
the header band, nothing to label — `create_constraints` still returns `Ok`
(here `Ok [4]` for input size 3, header minimum 1), not an error. -/
theorem c3_counterexample :
    (create_constraints 0 3 .Always (.Row 1)).isOk = true
    ∧ create_constraints 0 3 .Always (.Row 1) = Except.ok [4] :=
  ⟨rfl, rfl⟩

/-- C3 (amended): `create_constraints` has no error path at all — it returns
`Ok` for every input; when header mode is enabled and `cell_count` is zero
the result is just the header band `max(header_minimum_size, cell_size) + 1`
with no content bands. -/
theorem c3_amended (cell_count input_cell_size : Nat)
    (show_numbers : DisplayRowColumnNumber) (t : DisplayNumbersType) :
    (create_constraints cell_count input_cell_size show_numbers t).isOk = true
    ∧ create_constraints 0 input_cell_size .Always t
        = Except.ok [lenU16 (max t.get_value input_cell_size) 1] := by
  constructor
  · cases show_numbers <;> rfl
  · cases t <;> rfl

/-- C6 counterexample: for the edge set with only Left set, the claimed
symmetric bottom-left rule demands a vertical-right junction, but
`generate_border_set` leaves the plain corner (the wildcard arm keeps the
`PLAIN` field). -/
theorem c6_counterexample :
    generate_border_set ⟨false, false, false, true⟩
        ≠ claimed_border_set ⟨false, false, false, true⟩
    ∧ (generate_border_set ⟨false, false, false, true⟩).bottom_left = '└'
    ∧ (claimed_border_set ⟨false, false, false, true⟩).bottom_left = '├' :=
  ⟨by decide, rfl, rfl⟩

/-- C6 (amended): the top-left corner follows the claimed four-case table;
the top-right corner is handled only when Right is set (plain corner if Top
too, vertical-left otherwise) and keeps the plain corner when Right is
clear; the bottom-left corner is handled only when Bottom is set (plain
corner if Left too, horizontal-up otherwise) and keeps the plain corner when
Bottom is clear; the bottom-right corner always keeps the plain corner.
The unhandled cases are exactly those whose border side is not drawn. -/
theorem c6_amended (e : GridCellEdge) :
    ((generate_border_set e).top_left
        = if e.top && e.left then '┌'
          else if e.top then '┬' else if e.left then '├' else '┼')
    ∧ ((generate_border_set e).top_right
        = if e.top && e.right then '┐' else if e.right then '┤' else '┐')
    ∧ ((generate_border_set e).bottom_left
        = if e.bottom && e.left then '└' else if e.bottom then '┴' else '└')
    ∧ (generate_border_set e).bottom_right = '┘' := by
  obtain ⟨t, r, b, l⟩ := e
  cases t <;> cases r <;> cases b <;> cases l <;> decide

/-- C8 counterexample: rows dimension `D = 10`, cell size 1: the derived
cell count is `(10-1)/2 = 4` and the constraint lengths `[2, 2, 2, 3]` sum
to 9, not to the area dimension 10. -/
theorem c8_counterexample :
    calculate_viewable_grid_size visNever20x10 1 1 = some (Except.ok (4, 9))
    ∧ constraintsSum (create_constraints 4 1 .Never DISPLAY_NUMBERS_ROW) = 9
    ∧ (9 : Nat) ≠ 10 :=
  ⟨rfl, rfl, by decide⟩

/-- C8 (amended): in the no-headers case, with `cell_count` the row count
`calculate_viewable_grid_size` derives from area dimension `D` and cell
size `s`, the constraint lengths sum to `cell_count * (s + 1) + 1`; this is
at most `D`, and equals `D` exactly when `s + 1` divides `D - 1`. -/
theorem c8_amended {S : Type} (v : GridVisualiser S) (ch cw r c : Nat)
    (t : DisplayNumbersType)
    (hm : v.display_row_column_number = .Never)
    (hmr : v.max_rows = none)
    (hcalc : calculate_viewable_grid_size v ch cw = some (Except.ok (r, c)))
    (hsz : ch + 2 < 65536) :
    constraintsSum (create_constraints r ch .Never t) = r * (ch + 1) + 1
    ∧ r * (ch + 1) + 1 ≤ v.area_height
    ∧ (r * (ch + 1) + 1 = v.area_height ↔ (ch + 1) ∣ (v.area_height - 1)) := by
  have hH : 1 ≤ v.area_height := by
    by_contra hH
    have hz : v.area_height = 0 := by omega
    have hnone : naturalFit v ch cw = none := by
      simp [naturalFit, hm, checkedSub, hz]
    simp [calculate_viewable_grid_size, hnone] at hcalc
  have hW : 1 ≤ v.area_width := by
    by_contra hW
    have hz : v.area_width = 0 := by omega
    have hnone : naturalFit v ch cw = none := by
      simp [naturalFit, hm, checkedSub, hH, hz]
    simp [calculate_viewable_grid_size, hnone] at hcalc
  simp only [calculate_viewable_grid_size, naturalFit_never v ch cw hm hH hW,
    hmr, applyCap_none] at hcalc
  by_cases h0 : (v.area_height - 1) / (ch + 1) = 0
      ∨ applyCap ((v.area_width - 1) / (cw + 1)) v.max_cols = 0
  · rw [if_pos h0] at hcalc
    simp at hcalc
  · rw [if_neg h0] at hcalc
    simp only [Option.some.injEq, Except.ok.injEq, Prod.mk.injEq] at hcalc
    obtain ⟨hr, hc⟩ := hcalc
    subst hr
    have hr1 : 1 ≤ (v.area_height - 1) / (ch + 1) :=
      Nat.pos_of_ne_zero fun hz => h0 (Or.inl hz)
    have hmul : (v.area_height - 1) / (ch + 1) * (ch + 1) ≤ v.area_height - 1 :=
      Nat.div_mul_le_self _ _
    refine ⟨?_, ?_, ?_, ?_⟩
    · simp only [create_constraints, bandLengths_eq _ _ hr1 hsz, constraintsSum]
      rw [List.sum_append, List.sum_replicate, smul_eq_mul]
      obtain ⟨k, hk⟩ : ∃ k, (v.area_height - 1) / (ch + 1) = k + 1 :=
        ⟨(v.area_height - 1) / (ch + 1) - 1, by omega⟩
      rw [hk]
      simp only [Nat.add_sub_cancel, List.sum_cons, List.sum_nil]
      ring
    · have h2 := Nat.add_le_add_right hmul 1
      rwa [Nat.sub_add_cancel hH] at h2
    · intro heq
      have hqm := Nat.eq_sub_of_add_eq heq
      exact ⟨(v.area_height - 1) / (ch + 1), hqm.symm.trans (Nat.mul_comm _ _)⟩
    · intro hdvd
      have hqm := Nat.div_mul_cancel hdvd
      rw [hqm, Nat.sub_add_cancel hH]

/-- C8 witness: area dimension 5, cell size 1 (the spec's 2x2-in-5x5 case):
derived cell count 2, sum `2 * 2 + 1 = 5` equals the dimension since
`2 ∣ 4`. -/
theorem c8_amended_witness :
    constraintsSum (create_constraints 2 1 .Never DISPLAY_NUMBERS_ROW)
        = 2 * (1 + 1) + 1
    ∧ 2 * (1 + 1) + 1 ≤ visNever5x5.area_height
    ∧ (2 * (1 + 1) + 1 = visNever5x5.area_height
        ↔ (1 + 1) ∣ (visNever5x5.area_height - 1)) :=
  c8_amended visNever5x5 1 1 2 2 DISPLAY_NUMBERS_ROW rfl rfl rfl (by decide)

end GridVis
